import Mathlib

/-!
Shallow embedding of the loyaltering-server ledger subsystem
(src/controllers/transactionController.ts, src/controllers/customerController.ts,
src/services/notificationService.ts, Prisma-backed versions).

The persistence store (Prisma) is modelled as an explicit in-memory database
record threaded through each handler; `findUnique`/`findFirst` become
`List.find?`, `findMany`+`where` becomes `List.filter`, `create` prepends a
record, `aggregate _sum` becomes a filtered sum.  JS `number` amounts are
embedded as `Int` (all arithmetic in the ledger code is integer-valued points).
JS string truthiness (`!s` true for undefined and "") is modelled on
`Option String`.  Randomness (`Math.random`) and store-assigned ids are passed
in as explicit arguments.  Lean 4 strings are lists of characters, so all JS
string operations are embedded structurally over `List Char`.
-/

namespace Loyaltering

/-! ## Data model (Prisma tables, src/types) -/

/-- Push subscription keys sub-object (`pushSubscription.keys` in
`NotificationPermissionDocument`, src/types/index.ts). -/
structure PushKeys where
  p256dh : Option String
  auth : Option String
deriving DecidableEq

/-- Push subscription descriptor stored on a `NotificationPermission` row.
The service only ever inspects `endpoint` (a string) and forwards `keys`. -/
structure PushSub where
  endpoint : String
  keys : PushKeys
deriving DecidableEq

/-- `Customer` row.  `email` is stored normalized (trimmed, lower-cased) by
`createCustomer`; `phoneNormalized` is the digits-only form of `phone`. -/
structure Customer where
  id : String
  name : Option String
  email : String
  phone : Option String
  phoneNormalized : Option String
  memberCode : Option String
  dateOfBirth : Option String
  restaurantId : Option String
deriving DecidableEq

/-- `Transaction` (ledger entry) row.  `metadata` is an opaque JSON blob never
read by the code under verification and is omitted from the embedding. -/
structure Txn where
  id : String
  customerId : String
  restaurantId : String
  type : String
  amount : Int
  description : String
  balanceAfter : Int
  createdBy : Option String
deriving DecidableEq

/-- `Restaurant` row (only the fields read by `searchCustomer`). -/
structure Restaurant where
  id : String
  userId : Option String
deriving DecidableEq

/-- `NotificationPermission` row: unique per (customerId, restaurantId). -/
structure NotificationPermission where
  id : String
  customerId : String
  restaurantId : String
  permissionGranted : Bool
  pushSubscription : Option PushSub
deriving DecidableEq

/-- The relational store, one list per table, newest row first (Prisma
`create` is modelled as prepending). -/
structure DB where
  customers : List Customer
  restaurants : List Restaurant
  transactions : List Txn
  permissions : List NotificationPermission
deriving DecidableEq

/-! ## JS string helpers -/

/-- JS falsiness of an optional string field: `!x` is true for
`undefined`/`null` and for the empty string. -/
def jsStrFalsy : Option String → Bool
  | none => true
  | some s => s == ""

/-- JS `String.prototype.trim()` (ASCII whitespace suffices for the inputs the
controllers compare against). -/
def jsTrim (s : String) : String :=
  String.mk (((s.data.dropWhile Char.isWhitespace).reverse.dropWhile Char.isWhitespace).reverse)

/-- JS `String.prototype.toLowerCase()` (ASCII case folding). -/
def jsToLower (s : String) : String :=
  String.mk (s.data.map Char.toLower)

/-- `phone.replace(/\D/g, '')` — keep only decimal digits
(customerController.ts `normalizePhone`). -/
def normalizePhone (s : String) : String :=
  String.mk (s.data.filter Char.isDigit)

/-! ## Balance engine (transactionController.ts 12-18) -/

/-- `calculateCustomerBalance`: Prisma `aggregate` of `_sum.amount` over all
transactions with the given `customerId` (no restaurant filter); the SQL sum
of no rows is `null`, mapped to 0 by `?? 0`, which coincides with `List.sum`
of the empty list. -/
def calculateCustomerBalance (db : DB) (customerId : String) : Int :=
  ((db.transactions.filter (fun t => t.customerId == customerId)).map (fun t => t.amount)).sum

/-! ## createTransaction (transactionController.ts 20-114) -/

/-- Request body `CreateTransactionRequest`; every field that JS destructures
possibly-absent is an `Option`.  `metadata` is opaque and omitted. -/
structure CreateTransactionRequest where
  customerId : Option String
  restaurantId : Option String
  type : Option String
  amount : Option Int
  description : Option String
  createdBy : Option String
deriving DecidableEq

/-- HTTP response of the transaction endpoints, restricted to the observable
fields the claims mention. -/
structure TxnResponse where
  status : Nat
  success : Bool
  message : String
  txn : Option Txn
  balance : Option Int
deriving DecidableEq

/-- `validTypes` list from transactionController.ts line 46. -/
def validTypes : List String :=
  ["REGISTRATION", "EARNED", "REDEEMED", "EXPIRED", "ADJUSTED", "REFUNDED"]

/-- Types validated as non-negative (line 55). -/
def isPositiveType (ty : String) : Bool :=
  ty == "REGISTRATION" || ty == "EARNED" || ty == "REFUNDED"

/-- Types validated as non-positive (line 63). -/
def isNegativeType (ty : String) : Bool :=
  ty == "REDEEMED" || ty == "EXPIRED" || ty == "ADJUSTED"

/-- `createTransaction` handler.  `newId` is the store-assigned id of the
inserted row.  Checks run in source order: missing fields (400), customer
lookup (404), type validity (400), sign constraints (400); then the balance
snapshot is computed and the entry inserted; the 201 body spreads the saved
entry and adds `balance = savedTransaction.balanceAfter ?? balanceAfter`,
which is always the stored `balanceAfter`. -/
def createTransaction (db : DB) (r : CreateTransactionRequest) (newId : String) :
    DB × TxnResponse :=
  if jsStrFalsy r.customerId || jsStrFalsy r.restaurantId || jsStrFalsy r.type
      || r.amount.isNone || jsStrFalsy r.description then
    (db, ⟨400, false, "Please provide customerId, restaurantId, type, amount, and description",
      none, none⟩)
  else
    let customerId := r.customerId.getD ""
    let restaurantId := r.restaurantId.getD ""
    let ty := r.type.getD ""
    let amount := r.amount.getD 0
    let description := r.description.getD ""
    if (db.customers.find? (fun c => c.id == customerId)).isNone then
      (db, ⟨404, false, "Customer not found", none, none⟩)
    else if !(validTypes.contains ty) then
      (db, ⟨400, false,
        "Invalid transaction type. Must be one of: REGISTRATION, EARNED, REDEEMED, EXPIRED, ADJUSTED, REFUNDED",
        none, none⟩)
    else if isPositiveType ty ∧ amount < 0 then
      (db, ⟨400, false, ty ++ " transactions must have a positive amount", none, none⟩)
    else if isNegativeType ty ∧ amount > 0 then
      (db, ⟨400, false, ty ++ " transactions must have a negative amount", none, none⟩)
    else
      let currentBalance := calculateCustomerBalance db customerId
      let balanceAfter := currentBalance + amount
      let savedTransaction : Txn :=
        { id := newId, customerId := customerId, restaurantId := restaurantId, type := ty,
          amount := amount, description := description, balanceAfter := balanceAfter,
          createdBy := r.createdBy }
      let db' := { db with transactions := savedTransaction :: db.transactions }
      (db', ⟨201, true, "Transaction created successfully", some savedTransaction,
        some balanceAfter⟩)

/-! ## Member code allocator (customerController.ts 12-23) -/

/-- Prisma existence check used by the allocator: scoped to `restaurantId`
when given, otherwise to customers with `restaurantId: null`
(customerController.ts 15-19). -/
def memberCodeExists (db : DB) (restaurantId : Option String) (code : String) : Bool :=
  match restaurantId with
  | some rid =>
    (db.customers.find? (fun c => c.restaurantId == some rid && c.memberCode == some code)).isSome
  | none =>
    (db.customers.find? (fun c => c.memberCode == some code && c.restaurantId == none)).isSome

/-- The `for (attempt = 0; attempt < 15; attempt++)` loop, with remaining
attempts as fuel and `i` indexing into the stream of random draws.  Each draw
`Math.floor(10000 + Math.random() * 90000)` is a natural number; with
`Math.random() ∈ [0, 1)` it lies in [10000, 99999], which theorems take as a
hypothesis on the stream. -/
def memberCodeDraws (db : DB) (rid : Option String) (draws : Nat → Nat) :
    Nat → Nat → Option String
  | 0, _ => none
  | fuel + 1, i =>
    let code := toString (draws i)
    if memberCodeExists db rid code then memberCodeDraws db rid draws fuel (i + 1)
    else some code

/-- `generateMemberCode`: up to 15 draws; `none` models the thrown
`Error('Failed to generate unique member code')`. -/
def generateMemberCode (db : DB) (rid : Option String) (draws : Nat → Nat) : Option String :=
  memberCodeDraws db rid draws 15 0

/-! ## createCustomer (customerController.ts 25-160) -/

/-- Request body `CreateCustomerRequest`. -/
structure CreateCustomerRequest where
  name : Option String
  email : Option String
  phone : Option String
  dateOfBirth : Option String
  restaurantId : Option String
deriving DecidableEq

/-- Response of the customer endpoints, restricted to observable fields. -/
structure CustomerResponse where
  status : Nat
  success : Bool
  message : String
  customer : Option Customer
deriving DecidableEq

/-- The test of the literal regex on line 39, applied to the trimmed email.
A string matches exactly when it is wholly
non-whitespace and splits as nonempty-part, at-sign, nonempty-part, dot,
nonempty-part; i.e. there are positions i, j with 1 ≤ i, i + 2 ≤ j,
j + 2 ≤ length, an at-sign at i and a dot at j. -/
def emailRegexTest (s : String) : Bool :=
  let cs := s.data
  cs.all (fun c => !c.isWhitespace) &&
  (List.range cs.length).any (fun i =>
    (List.range cs.length).any (fun j =>
      decide (1 ≤ i) && decide (i + 2 ≤ j) && decide (j + 2 ≤ cs.length) &&
      (cs.getD i ' ' == '@') && (cs.getD j ' ' == '.')))

/-- The restaurant scope `createCustomer` actually uses: line 79 trims the
provided id when truthy, and both `generateMemberCode(rid || undefined)` and
the spread `...(rid && { restaurantId: rid })` drop an empty trimmed value. -/
def effectiveRestaurantId (r : CreateCustomerRequest) : Option String :=
  match r.restaurantId with
  | some s => if s == "" then none else if jsTrim s == "" then none else some (jsTrim s)
  | none => none

/-- `createCustomer` handler.  `dateValid` abstracts the external
`new Date(...)`/`isNaN` parse (the date is otherwise stored opaquely);
`draws` feeds the allocator; `welcomeBonusPoints` is
`parseInt(process.env.WELCOME_BONUS_POINTS || '0', 10)`; `newCustomerId` and
`newTxnId` are the store-assigned ids.  An exhausted allocator throws, which
the catch block turns into a 500 with nothing committed. -/
def createCustomer (db : DB) (r : CreateCustomerRequest) (dateValid : String → Bool)
    (draws : Nat → Nat) (welcomeBonusPoints : Int) (newCustomerId newTxnId : String) :
    DB × CustomerResponse :=
  match r.email with
  | none => (db, ⟨400, false, "Please provide a valid email address", none⟩)
  | some email =>
    if jsTrim email == "" then
      (db, ⟨400, false, "Please provide a valid email address", none⟩)
    else if !emailRegexTest (jsTrim email) then
      (db, ⟨400, false, "Please provide a valid email address", none⟩)
    else if (match r.dateOfBirth with
             | some d => (d != "") && !(dateValid d)
             | none => false) then
      (db, ⟨400, false, "Invalid date of birth format", none⟩)
    else
      let normalizedEmail := jsToLower (jsTrim email)
      if (db.customers.find? (fun c => c.email == normalizedEmail)).isSome then
        (db, ⟨409, false, "Customer with this email already exists", none⟩)
      else
        let rid := effectiveRestaurantId r
        match generateMemberCode db rid draws with
        | none => (db, ⟨500, false, "Error creating customer", none⟩)
        | some code =>
          let phoneStored : Option (String × String) :=
            match r.phone with
            | some p => if jsTrim p == "" then none else some (jsTrim p, normalizePhone p)
            | none => none
          let savedCustomer : Customer :=
            { id := newCustomerId
              name := match r.name with
                      | some n => if jsTrim n == "" then none else some (jsTrim n)
                      | none => none
              email := normalizedEmail
              phone := phoneStored.map (fun pp => pp.1)
              phoneNormalized := phoneStored.map (fun pp => pp.2)
              memberCode := some code
              dateOfBirth := match r.dateOfBirth with
                             | some d => if d == "" then none else some d
                             | none => none
              restaurantId := rid }
          let db1 := { db with customers := savedCustomer :: db.customers }
          match rid with
          | some rrid =>
            let regTxn : Txn :=
              { id := newTxnId, customerId := newCustomerId, restaurantId := rrid,
                type := "REGISTRATION", amount := welcomeBonusPoints,
                description :=
                  if welcomeBonusPoints > 0 then
                    "Welcome bonus: " ++ toString welcomeBonusPoints ++
                      " points awarded on registration"
                  else "Customer registration",
                balanceAfter := welcomeBonusPoints, createdBy := none }
            let db2 := { db1 with transactions := regTxn :: db1.transactions }
            (db2, ⟨201, true, "Customer created successfully", some savedCustomer⟩)
          | none => (db1, ⟨201, true, "Customer created successfully", some savedCustomer⟩)

/-! ## getCustomerBalance (transactionController.ts 169-201) -/

/-- Response of the balance endpoint. -/
structure BalanceResponse where
  status : Nat
  success : Bool
  message : String
  balance : Option Int
deriving DecidableEq

/-- `getCustomerBalance` handler: 404 when the customer id resolves to no
row, otherwise 200 with the aggregate balance.  The handler performs no
writes, which the embedding reflects by not returning a store. -/
def getCustomerBalance (db : DB) (customerId : String) : BalanceResponse :=
  if (db.customers.find? (fun c => c.id == customerId)).isNone then
    ⟨404, false, "Customer not found", none⟩
  else
    ⟨200, true, "Balance retrieved successfully", some (calculateCustomerBalance db customerId)⟩

/-! ## searchCustomer (customerController.ts 257-328) -/

/-- Response of the search endpoint. -/
structure SearchResponse where
  status : Nat
  success : Bool
  message : String
  customer : Option Customer
deriving DecidableEq

/-- `q.startsWith('#')`. -/
def startsWithHash (s : String) : Bool :=
  match s.data with
  | c :: _ => c == '#'
  | [] => false

/-- Character-list worker for `removeFirstHash`. -/
def removeFirstHashAux : List Char → List Char
  | [] => []
  | c :: rest => if c == '#' then rest else c :: removeFirstHashAux rest

/-- JS `q.replace('#', '')`: removes only the first occurrence. -/
def removeFirstHash (s : String) : String :=
  String.mk (removeFirstHashAux s.data)

/-- Shared tail of `searchCustomer`: a found row is a 200, a miss is the 404
`Customer not found` (lines 314-319). -/
def searchOutcome (found : Option Customer) : SearchResponse :=
  match found with
  | none => ⟨404, false, "Customer not found", none⟩
  | some c => ⟨200, true, "Customer found", some c⟩

/-- `searchCustomer` handler.  Scope resolution: an explicit (trimmed)
`restaurantId` wins; otherwise a nonempty `userId` is resolved through the
restaurant table (404 when absent); otherwise 400.  Dispatch on the trimmed
query: contains an at-sign → email; starts with a hash, or its digit-stripped
form has 1 to 6 digits → member code (the looked-up code is the digit-stripped
form, or the hash-stripped raw query when no digit survives); otherwise a
single lookup matching either `phoneNormalized` against the digit-stripped
form or `phone` against the raw query. -/
def searchCustomer (db : DB) (q restaurantId userId : Option String) : SearchResponse :=
  let qRaw := jsTrim (q.getD "")
  let restaurantIdRaw := jsTrim (restaurantId.getD "")
  let uid := jsTrim (userId.getD "")
  if qRaw == "" then ⟨400, false, "Query parameter q is required", none⟩
  else
    let resolved : Option (Option String) :=
      if restaurantIdRaw != "" then some (some restaurantIdRaw)
      else if uid != "" then
        match db.restaurants.find? (fun rest => rest.userId == some uid) with
        | some rest => some (some rest.id)
        | none => none
      else some none
    match resolved with
    | none => ⟨404, false, "Restaurant not found for user", none⟩
    | some none =>
      ⟨400, false, "restaurantId (preferred) or valid userId is required for scoped search", none⟩
    | some (some rid) =>
      if rid == "" then
        ⟨400, false, "restaurantId (preferred) or valid userId is required for scoped search", none⟩
      else
        let digitsOnly := normalizePhone qRaw
        if qRaw.data.contains '@' then
          searchOutcome (db.customers.find? (fun c =>
            c.restaurantId == some rid && c.email == jsToLower qRaw))
        else if startsWithHash qRaw || (decide (1 ≤ digitsOnly.length) && decide (digitsOnly.length ≤ 6)) then
          let memberCode := if digitsOnly == "" then removeFirstHash qRaw else digitsOnly
          searchOutcome (db.customers.find? (fun c =>
            c.restaurantId == some rid && c.memberCode == some memberCode))
        else
          searchOutcome (db.customers.find? (fun c =>
            c.restaurantId == some rid &&
              (c.phoneNormalized == some digitsOnly || c.phone == some qRaw)))

/-! ## Notification service (notificationService.ts 22-126, Prisma version) -/

/-- Outcome of one provider call (`webpush.sendNotification`): success, or an
error carrying the provider's optional HTTP `statusCode` and its `message`. -/
inductive PushResult where
  | ok : PushResult
  | err : Option Nat → String → PushResult
deriving DecidableEq

/-- The `{ sent, failed, errors }` aggregate. -/
structure SendStats where
  sent : Nat
  failed : Nat
  errors : List String
deriving DecidableEq

/-- Per-target result object built inside the `map` callback. -/
structure DeliveryOutcome where
  success : Bool
  error : Option String
deriving DecidableEq

/-- A value supplied for one column of a Prisma `update`'s `data` object.
Prisma Client skips any column whose value is the JS `undefined` (only an
explicit `null`/`DbNull` clears a nullable column), so `.undef` leaves the
stored value untouched. -/
inductive PrismaJsonArg where
  | undef : PrismaJsonArg
  | setTo : Option PushSub → PrismaJsonArg
deriving DecidableEq

/-- Prisma Client semantics of one `data` column value. -/
def applyPrismaJsonArg : PrismaJsonArg → Option PushSub → Option PushSub
  | .undef, old => old
  | .setTo v, _ => v

/-- Result of `sendNotificationToRestaurant` enriched with the trace of
endpoints actually handed to the push provider (the embedding of the
`webpush.sendNotification` external calls). -/
structure SendOutcome where
  db : DB
  stats : SendStats
  attempted : List String
deriving DecidableEq

/-- One iteration of the `permissionsWithSubscription.map` callback
(notificationService.ts 78-108): re-check the endpoint's truthiness, call the
provider, and on HTTP 410/404 run
`prisma.notificationPermission.update({ where: { id }, data: { pushSubscription: undefined } })`
— whose `undefined` column value Prisma skips, embedded as the `.undef`
argument.  Returns the updated store, the outcome object, and the endpoints
passed to the provider. -/
def sendPushToPermission (provider : String → PushResult) (db : DB)
    (p : NotificationPermission) : DB × DeliveryOutcome × List String :=
  match p.pushSubscription with
  | none => (db, ⟨false, some "No push subscription"⟩, [])
  | some sub =>
    if sub.endpoint == "" then (db, ⟨false, some "No push subscription"⟩, [])
    else
      match provider sub.endpoint with
      | .ok => (db, ⟨true, none⟩, [sub.endpoint])
      | .err statusCode msg =>
        let db' :=
          if statusCode == some 410 || statusCode == some 404 then
            { db with permissions := db.permissions.map (fun row =>
                if row.id == p.id then
                  { row with pushSubscription := applyPrismaJsonArg .undef row.pushSubscription }
                else row) }
          else db
        (db', ⟨false, some msg⟩, [sub.endpoint])

/-- Sequential embedding of the `Promise.allSettled` over the targets.  Each
target touches at most its own permission row, and rows are fetched once
before any send, so sequential threading of the store agrees with any
interleaving of the concurrent updates. -/
def runDeliveries (provider : String → PushResult) :
    DB → List NotificationPermission → DB × List DeliveryOutcome × List String
  | db, [] => (db, [], [])
  | db, p :: rest =>
    let step := sendPushToPermission provider db p
    let next := runDeliveries provider step.1 rest
    (next.1, step.2.1 :: next.2.1, step.2.2 ++ next.2.2)

/-- The Prisma `where` clause of notificationService.ts 33-39: restaurant
scope, `permissionGranted: true`, and the `customerId: { in: ... }` filter
added only when `customerIds` is present and nonempty. -/
def permissionMatchesTarget (restaurantId : String) (customerIds : Option (List String))
    (p : NotificationPermission) : Bool :=
  p.restaurantId == restaurantId && p.permissionGranted &&
  (match customerIds with
   | some l => if l.isEmpty then true else l.contains p.customerId
   | none => true)

/-- Line 53-56 filter: the row carries a push subscription whose `endpoint`
is a string (always true of the embedded `PushSub`). -/
def hasPushSubscription (p : NotificationPermission) : Bool :=
  p.pushSubscription.isSome

/-- JS truthiness of the two VAPID key environment variables (line 27). -/
def vapidConfigured (vapidPublicKey vapidPrivateKey : Option String) : Bool :=
  !(jsStrFalsy vapidPublicKey) && !(jsStrFalsy vapidPrivateKey)

/-- `sendNotificationToRestaurant`: hard error only for missing provider
configuration; otherwise resolves the target rows, short-circuits with one
diagnostic string when no row matches or none carries a subscription, and
otherwise aggregates the per-target outcomes: `sent` counts successes,
`failed = results.length - sent`, and `errors` collects the messages of
non-successes, dropping falsy (empty) ones. -/
def sendNotificationToRestaurant (vapidPublicKey vapidPrivateKey : Option String)
    (provider : String → PushResult) (db : DB) (restaurantId : String)
    (customerIds : Option (List String)) : Except String SendOutcome :=
  if !(vapidConfigured vapidPublicKey vapidPrivateKey) then
    .error "VAPID keys are not configured. Please set VAPID_PUBLIC_KEY and VAPID_PRIVATE_KEY environment variables."
  else
    let permissions := db.permissions.filter (permissionMatchesTarget restaurantId customerIds)
    if permissions.isEmpty then
      let message :=
        match customerIds with
        | some l =>
          if l.isEmpty then "No customers found who granted permission for this restaurant"
          else "No matching customers found with the provided customer IDs"
        | none => "No customers found who granted permission for this restaurant"
      .ok ⟨db, ⟨0, 0, [message]⟩, []⟩
    else
      let withSub := permissions.filter hasPushSubscription
      if withSub.isEmpty then
        .ok ⟨db, ⟨0, 0,
          ["No push subscriptions found. " ++ toString permissions.length ++
            " user(s) granted permission but need to set up push subscriptions (service worker required)."]⟩,
          []⟩
      else
        let run := runDeliveries provider db withSub
        let outcomes := run.2.1
        let sent := (outcomes.filter (fun o => o.success)).length
        let failed := outcomes.length - sent
        let errors := (outcomes.filter (fun o => !o.success)).filterMap (fun o =>
          match o.error with
          | some m => if m == "" then none else some m
          | none => none)
        .ok ⟨run.1, ⟨sent, failed, errors⟩, run.2.2⟩

/-! ## sendNotification HTTP handler (transactionController.ts 398-453) -/

/-- Request body `SendNotificationRequest` (`data` payload is opaque to the
control flow and omitted). -/
structure SendNotificationBody where
  restaurantId : Option String
  title : Option String
  body : Option String
  customerIds : Option (List String)
deriving DecidableEq

/-- Response of the send endpoint, restricted to observable fields. -/
structure NotifyResponse where
  status : Nat
  success : Bool
  message : String
  sent : Option Nat
  failed : Option Nat
  errors : Option (List String)
deriving DecidableEq

/-- `sendNotification` handler: 400 on missing required fields; 400 on an
explicitly empty `customerIds` array (distinct from omitting it); then the
service call, whose thrown error the catch block turns into a 500. -/
def sendNotification (vapidPublicKey vapidPrivateKey : Option String)
    (provider : String → PushResult) (db : DB) (r : SendNotificationBody) :
    DB × NotifyResponse :=
  if jsStrFalsy r.restaurantId || jsStrFalsy r.title || jsStrFalsy r.body then
    (db, ⟨400, false, "Restaurant ID, title, and body are required", none, none, none⟩)
  else if (match r.customerIds with | some l => l.isEmpty | none => false) then
    (db, ⟨400, false, "customerIds array cannot be empty. Omit it to send to all customers.",
      none, none, none⟩)
  else
    match sendNotificationToRestaurant vapidPublicKey vapidPrivateKey provider db
        (r.restaurantId.getD "") r.customerIds with
    | .error _ => (db, ⟨500, false, "Error sending notification", none, none, none⟩)
    | .ok out =>
      let targetDescription :=
        match r.customerIds with
        | some l => if 0 < l.length then toString l.length ++ " selected customer(s)"
                    else "all subscribers"
        | none => "all subscribers"
      (out.db, ⟨200, true,
        "Notification sent to " ++ toString out.stats.sent ++ " " ++ targetDescription,
        some out.stats.sent, some out.stats.failed,
        if out.stats.errors.isEmpty then none else some out.stats.errors⟩)

/-! ## createNotificationPermission (transactionController.ts 250-305) -/

/-- Request body `CreateNotificationPermissionRequest`. -/
structure CreateNotificationPermissionBody where
  customerId : Option String
  restaurantId : Option String
  permissionGranted : Option Bool
  pushSubscription : Option PushSub
deriving DecidableEq

/-- Response of the permission endpoint, restricted to observable fields. -/
structure PermissionResponse where
  status : Nat
  success : Bool
  message : String
deriving DecidableEq

/-- The compound unique key `customerId_restaurantId` of the upsert. -/
def permKeyMatch (cid rid : String) (p : NotificationPermission) : Bool :=
  p.customerId == cid && p.restaurantId == rid

/-- Prisma `upsert` on the unique (customerId, restaurantId) key: update the
matching row in place when one exists, otherwise create one.  Both branches
receive `permissionGranted: permissionGranted ?? false` and
`pushSubscription: pushSubscription || undefined`; the latter is `.undef`
when the request omits the subscription, leaving (respectively defaulting)
the stored value. -/
def upsertNotificationPermission (db : DB) (cid rid : String) (pg : Bool)
    (subArg : PrismaJsonArg) (newId : String) : DB :=
  if db.permissions.any (permKeyMatch cid rid) then
    { db with permissions := db.permissions.map (fun p =>
        if permKeyMatch cid rid p then
          { p with permissionGranted := pg,
                   pushSubscription := applyPrismaJsonArg subArg p.pushSubscription }
        else p) }
  else
    { db with permissions :=
        ⟨newId, cid, rid, pg, applyPrismaJsonArg subArg none⟩ :: db.permissions }

/-- `createNotificationPermission` handler: 400 on missing ids, 404 on
unknown customer, then the upsert and a 201. -/
def createNotificationPermission (db : DB) (r : CreateNotificationPermissionBody)
    (newId : String) : DB × PermissionResponse :=
  if jsStrFalsy r.customerId || jsStrFalsy r.restaurantId then
    (db, ⟨400, false, "Customer ID and Restaurant ID are required"⟩)
  else
    let cid := r.customerId.getD ""
    let rid := r.restaurantId.getD ""
    if (db.customers.find? (fun c => c.id == cid)).isNone then
      (db, ⟨404, false, "Customer not found"⟩)
    else
      let subArg := match r.pushSubscription with
                    | some s => PrismaJsonArg.setTo (some s)
                    | none => PrismaJsonArg.undef
      let db' := upsertNotificationPermission db cid rid (r.permissionGranted.getD false)
        subArg newId
      (db', ⟨201, true, "Notification permission saved successfully"⟩)

/-! ## Shared fixtures for witnesses -/

/-- A customer on record, used to instantiate witnesses. -/
def exCustomer : Customer :=
  { id := "c1", name := none, email := "c1@example.com", phone := none, phoneNormalized := none,
    memberCode := some "12345", dateOfBirth := none, restaurantId := some "r1" }

/-- A store holding just `exCustomer` and no ledger entries. -/
def exDB : DB :=
  { customers := [exCustomer], restaurants := [], transactions := [], permissions := [] }

/-! ## Claim C1 -/

/-- Claim C1: a `createTransaction` call that passes every validation inserts
a ledger entry whose `balanceAfter` is the sum of the amounts of all of that
customer's previously stored entries plus the new entry's own amount, and the
201 response returns the entry together with a `balance` equal to that
`balanceAfter`. -/
theorem createTransaction_creates_snapshot
    (db : DB) (r : CreateTransactionRequest) (newId cid rid ty d : String) (a : Int)
    (hcid : r.customerId = some cid) (hcid' : cid ≠ "")
    (hrid : r.restaurantId = some rid) (hrid' : rid ≠ "")
    (hty : r.type = some ty) (hty' : ty ≠ "")
    (ha : r.amount = some a)
    (hd : r.description = some d) (hd' : d ≠ "")
    (hcust : (db.customers.find? (fun c => c.id == cid)).isNone = false)
    (htype : validTypes.contains ty = true)
    (hpos : ¬(isPositiveType ty = true ∧ a < 0))
    (hneg : ¬(isNegativeType ty = true ∧ 0 < a)) :
    ∃ t : Txn,
      createTransaction db r newId =
        ({ db with transactions := t :: db.transactions },
         { status := 201, success := true, message := "Transaction created successfully",
           txn := some t, balance := some t.balanceAfter }) ∧
      t.customerId = cid ∧ t.amount = a ∧
      t.balanceAfter =
        ((db.transactions.filter (fun prev => prev.customerId == cid)).map
          (fun prev => prev.amount)).sum + a := by
  refine ⟨{ id := newId, customerId := cid, restaurantId := rid, type := ty, amount := a,
            description := d, balanceAfter := calculateCustomerBalance db cid + a,
            createdBy := r.createdBy }, ?_, rfl, rfl, by simp [calculateCustomerBalance]⟩
  have htype' : ty ∈ validTypes := by simpa using htype
  unfold createTransaction
  simp [hcid, hrid, hty, ha, hd, jsStrFalsy, hcid', hrid', hty', hd', hcust, htype', hpos, hneg]

/-- Witness for C1: an EARNED posting of 50 for the customer on record lands
with `balanceAfter = 0 + 50` and a 201 carrying that balance. -/
theorem createTransaction_creates_snapshot_witness :
    ∃ t : Txn,
      createTransaction exDB ⟨some "c1", some "r1", some "EARNED", some 50, some "op earn", none⟩
          "t1" =
        ({ exDB with transactions := t :: exDB.transactions },
         { status := 201, success := true, message := "Transaction created successfully",
           txn := some t, balance := some t.balanceAfter }) ∧
      t.customerId = "c1" ∧ t.amount = 50 ∧
      t.balanceAfter =
        ((exDB.transactions.filter (fun prev => prev.customerId == "c1")).map
          (fun prev => prev.amount)).sum + 50 :=
  createTransaction_creates_snapshot exDB
    ⟨some "c1", some "r1", some "EARNED", some 50, some "op earn", none⟩
    "t1" "c1" "r1" "EARNED" "op earn" 50 rfl (by decide) rfl (by decide) rfl (by decide)
    rfl rfl (by decide) (by decide) (by decide) (by decide) (by decide)

/-! ## Claim C2 -/

/-- Every positive-constrained type is in the closed enum. -/
theorem isPositiveType_mem_validTypes {ty : String} (h : isPositiveType ty = true) :
    ty ∈ validTypes := by
  simp only [isPositiveType, Bool.or_eq_true, beq_iff_eq] at h
  rcases h with (h | h) | h <;> subst h <;> decide

/-- Every negative-constrained type is in the closed enum. -/
theorem isNegativeType_mem_validTypes {ty : String} (h : isNegativeType ty = true) :
    ty ∈ validTypes := by
  simp only [isNegativeType, Bool.or_eq_true, beq_iff_eq] at h
  rcases h with (h | h) | h <;> subst h <;> decide

/-- No type is both positive- and negative-constrained. -/
theorem isPositiveType_not_isNegativeType {ty : String} (h : isPositiveType ty = true) :
    isNegativeType ty = false := by
  simp only [isPositiveType, Bool.or_eq_true, beq_iff_eq] at h
  rcases h with (h | h) | h <;> subst h <;> decide

/-- Claim C2: with all fields present and the customer on record,
`createTransaction` rejects a negative amount for REGISTRATION/EARNED/REFUNDED
with a 400 and the positive-amount message, rejects a positive amount for
REDEEMED/EXPIRED/ADJUSTED with a 400 and the negative-amount message — in both
cases leaving the store (hence the customer's balance) unchanged — and accepts
amount 0 for every one of the six valid types with a 201. -/
theorem createTransaction_sign_enforcement
    (db : DB) (r : CreateTransactionRequest) (newId cid rid ty d : String) (a : Int)
    (hcid : r.customerId = some cid) (hcid' : cid ≠ "")
    (hrid : r.restaurantId = some rid) (hrid' : rid ≠ "")
    (hty : r.type = some ty) (hty' : ty ≠ "")
    (ha : r.amount = some a)
    (hd : r.description = some d) (hd' : d ≠ "")
    (hcust : (db.customers.find? (fun c => c.id == cid)).isNone = false) :
    (isPositiveType ty = true → a < 0 →
      createTransaction db r newId =
        (db, ⟨400, false, ty ++ " transactions must have a positive amount", none, none⟩)) ∧
    (isNegativeType ty = true → 0 < a →
      createTransaction db r newId =
        (db, ⟨400, false, ty ++ " transactions must have a negative amount", none, none⟩)) ∧
    (validTypes.contains ty = true → a = 0 →
      (createTransaction db r newId).2.status = 201 ∧
      (createTransaction db r newId).2.success = true) := by
  refine ⟨fun hp hneg => ?_, fun hn hposa => ?_, fun hmem h0 => ?_⟩
  · have htype' : ty ∈ validTypes := isPositiveType_mem_validTypes hp
    unfold createTransaction
    simp [hcid, hrid, hty, ha, hd, jsStrFalsy, hcid', hrid', hty', hd', hcust, htype', hp, hneg]
  · have htype' : ty ∈ validTypes := isNegativeType_mem_validTypes hn
    have hpf : ¬(isPositiveType ty = true ∧ a < 0) := by
      rintro ⟨hp, hlt⟩
      exact absurd hn (by simp [isPositiveType_not_isNegativeType hp])
    unfold createTransaction
    simp [hcid, hrid, hty, ha, hd, jsStrFalsy, hcid', hrid', hty', hd', hcust, htype', hn,
      hposa, hpf]
  · have htype' : ty ∈ validTypes := by simpa using hmem
    subst h0
    unfold createTransaction
    simp [hcid, hrid, hty, ha, hd, jsStrFalsy, hcid', hrid', hty', hd', hcust, htype']

/-- Witness for C2: REDEEMED with amount 30 is rejected with the
negative-amount message and no entry written; REGISTRATION with amount -5 is
rejected with the positive-amount message; ADJUSTED with amount 0 is
accepted. -/
theorem createTransaction_sign_enforcement_witness :
    (createTransaction exDB ⟨some "c1", some "r1", some "REDEEMED", some 30, some "x", none⟩
        "t1" =
      (exDB, ⟨400, false, "REDEEMED transactions must have a negative amount", none, none⟩)) ∧
    (createTransaction exDB ⟨some "c1", some "r1", some "REGISTRATION", some (-5), some "x",
        none⟩ "t1" =
      (exDB, ⟨400, false, "REGISTRATION transactions must have a positive amount", none,
        none⟩)) ∧
    ((createTransaction exDB ⟨some "c1", some "r1", some "ADJUSTED", some 0, some "x", none⟩
        "t1").2.status = 201) := by
  refine ⟨?_, ?_, ?_⟩
  · exact (createTransaction_sign_enforcement exDB
      ⟨some "c1", some "r1", some "REDEEMED", some 30, some "x", none⟩
      "t1" "c1" "r1" "REDEEMED" "x" 30 rfl (by decide) rfl (by decide) rfl (by decide)
      rfl rfl (by decide) (by decide)).2.1 (by decide) (by decide)
  · exact (createTransaction_sign_enforcement exDB
      ⟨some "c1", some "r1", some "REGISTRATION", some (-5), some "x", none⟩
      "t1" "c1" "r1" "REGISTRATION" "x" (-5) rfl (by decide) rfl (by decide) rfl (by decide)
      rfl rfl (by decide) (by decide)).1 (by decide) (by decide)
  · exact ((createTransaction_sign_enforcement exDB
      ⟨some "c1", some "r1", some "ADJUSTED", some 0, some "x", none⟩
      "t1" "c1" "r1" "ADJUSTED" "x" 0 rfl (by decide) rfl (by decide) rfl (by decide)
      rfl rfl (by decide) (by decide)).2.2 (by decide) rfl).1

/-! ## Claim C8 -/

/-- Claim C8: `getCustomerBalance` answers 404 `Customer not found` when no
customer has the id, otherwise 200 with the sum of the amounts of every
ledger entry with that `customerId`; the sum ignores each entry's
`restaurantId` — prepending an entry with an arbitrary `restaurantId` for the
customer shifts the computed balance by exactly its amount.  (The handler is
a pure read: the embedding returns no store.) -/
theorem getCustomerBalance_spec (db : DB) (cid : String) :
    (db.customers.find? (fun c => c.id == cid) = none →
      getCustomerBalance db cid = ⟨404, false, "Customer not found", none⟩) ∧
    ((db.customers.find? (fun c => c.id == cid)).isSome = true →
      getCustomerBalance db cid =
        ⟨200, true, "Balance retrieved successfully",
          some (((db.transactions.filter (fun t => t.customerId == cid)).map
            (fun t => t.amount)).sum)⟩) ∧
    (∀ t : Txn, t.customerId = cid →
      calculateCustomerBalance { db with transactions := t :: db.transactions } cid =
        calculateCustomerBalance db cid + t.amount) := by
  refine ⟨fun hnone => ?_, fun hsome => ?_, fun t htc => ?_⟩
  · unfold getCustomerBalance
    simp [hnone]
  · unfold getCustomerBalance
    rw [if_neg]
    · simp [calculateCustomerBalance]
    · obtain ⟨c, hc⟩ := Option.isSome_iff_exists.mp hsome
      simp [Option.isNone_iff_eq_none, hc]
  · unfold calculateCustomerBalance
    simp [List.filter_cons, htc, Int.add_comm]

/-- Witness for C8: an unknown id yields the 404; the customer on record with
one EARNED entry in restaurant r1 and one in r2 yields 200 with the
tenant-wide sum 70; prepending a REDEEMED entry for a third restaurant moves
the balance by its amount. -/
theorem getCustomerBalance_spec_witness :
    (getCustomerBalance exDB "nobody" = ⟨404, false, "Customer not found", none⟩) ∧
    (getCustomerBalance
        { exDB with transactions :=
            [⟨"t1", "c1", "r1", "EARNED", 50, "a", 50, none⟩,
             ⟨"t2", "c1", "r2", "EARNED", 20, "b", 70, none⟩] } "c1" =
      ⟨200, true, "Balance retrieved successfully", some 70⟩) ∧
    (calculateCustomerBalance
        { exDB with transactions := [⟨"t3", "c1", "r3", "REDEEMED", -30, "c", 40, none⟩,
            ⟨"t1", "c1", "r1", "EARNED", 50, "a", 50, none⟩,
            ⟨"t2", "c1", "r2", "EARNED", 20, "b", 70, none⟩] } "c1" =
      calculateCustomerBalance
        { exDB with transactions :=
            [⟨"t1", "c1", "r1", "EARNED", 50, "a", 50, none⟩,
             ⟨"t2", "c1", "r2", "EARNED", 20, "b", 70, none⟩] } "c1" + (-30)) := by
  refine ⟨?_, ?_, ?_⟩
  · exact (getCustomerBalance_spec exDB "nobody").1 (by decide)
  · have h := (getCustomerBalance_spec
      { exDB with transactions :=
          [⟨"t1", "c1", "r1", "EARNED", 50, "a", 50, none⟩,
           ⟨"t2", "c1", "r2", "EARNED", 20, "b", 70, none⟩] } "c1").2.1 (by decide)
    rw [h]; decide
  · exact (getCustomerBalance_spec
      { exDB with transactions :=
          [⟨"t1", "c1", "r1", "EARNED", 50, "a", 50, none⟩,
           ⟨"t2", "c1", "r2", "EARNED", 20, "b", 70, none⟩] } "c1").2.2
      ⟨"t3", "c1", "r3", "REDEEMED", -30, "c", 40, none⟩ rfl

/-! ## Claim C3 -/

/-- A successful draw loop returned one of its draws, and that code was free
in the scope when checked. -/
theorem memberCodeDraws_some (db : DB) (rid : Option String) (draws : Nat → Nat) :
    ∀ (fuel i : Nat) (code : String),
      memberCodeDraws db rid draws fuel i = some code →
      ∃ j, i ≤ j ∧ j < i + fuel ∧ code = toString (draws j) ∧
        memberCodeExists db rid code = false := by
  intro fuel
  induction fuel with
  | zero => intro i code h; simp [memberCodeDraws] at h
  | succ n ih =>
    intro i code h
    unfold memberCodeDraws at h
    by_cases hex : memberCodeExists db rid (toString (draws i)) = true
    · rw [if_pos hex] at h
      obtain ⟨j, hj1, hj2, hj3, hj4⟩ := ih (i + 1) code h
      exact ⟨j, by omega, by omega, hj3, hj4⟩
    · rw [if_neg hex] at h
      cases h
      exact ⟨i, Nat.le_refl i, by omega, rfl, by simpa using hex⟩

/-- If every draw the loop can make collides, the loop fails. -/
theorem memberCodeDraws_none (db : DB) (rid : Option String) (draws : Nat → Nat) :
    ∀ (fuel i : Nat),
      (∀ j, i ≤ j → j < i + fuel → memberCodeExists db rid (toString (draws j)) = true) →
      memberCodeDraws db rid draws fuel i = none := by
  intro fuel
  induction fuel with
  | zero => intro i _; rfl
  | succ n ih =>
    intro i hall
    unfold memberCodeDraws
    rw [if_pos (hall i (Nat.le_refl i) (by omega))]
    exact ih (i + 1) (fun j hj1 hj2 => hall j (by omega) (by omega))

/-- The loop only reads the draws at the indices it can reach. -/
theorem memberCodeDraws_congr (db : DB) (rid : Option String) (draws draws' : Nat → Nat) :
    ∀ (fuel i : Nat), (∀ j, i ≤ j → j < i + fuel → draws j = draws' j) →
      memberCodeDraws db rid draws fuel i = memberCodeDraws db rid draws' fuel i := by
  intro fuel
  induction fuel with
  | zero => intro i _; rfl
  | succ n ih =>
    intro i hag
    unfold memberCodeDraws
    rw [hag i (Nat.le_refl i) (by omega), ih (i + 1) (fun j hj1 hj2 => hag j (by omega) (by omega))]

/-- Claim C3: when every draw lies in [10000, 99999] (the image of
`Math.floor(10000 + Math.random() * 90000)`), a successful
`generateMemberCode` returns the decimal string of one of its first 15 draws
— hence a 5-digit value in [10000, 99999] — that no existing customer in the
same scope holds; the allocator reads at most the first 15 draws; if all 15
collide it fails; and when allocation fails `createCustomer` commits nothing
(the store is returned unchanged — the allocation runs before the customer
insert). -/
theorem generateMemberCode_spec (db : DB) (rid : Option String) (draws draws' : Nat → Nat)
    (r : CreateCustomerRequest) (dateValid : String → Bool) (wb : Int)
    (ncid ntid : String) :
    (∀ code : String, generateMemberCode db rid draws = some code →
      (∀ i, i < 15 → 10000 ≤ draws i ∧ draws i ≤ 99999) →
      (∃ i, i < 15 ∧ code = toString (draws i) ∧ 10000 ≤ draws i ∧ draws i ≤ 99999) ∧
        memberCodeExists db rid code = false) ∧
    ((∀ i, i < 15 → memberCodeExists db rid (toString (draws i)) = true) →
      generateMemberCode db rid draws = none) ∧
    ((∀ i, i < 15 → draws i = draws' i) →
      generateMemberCode db rid draws = generateMemberCode db rid draws') ∧
    (generateMemberCode db (effectiveRestaurantId r) draws = none →
      (createCustomer db r dateValid draws wb ncid ntid).1 = db) := by
  refine ⟨fun code hsome hrange => ?_, fun hall => ?_, fun hag => ?_, fun hnone => ?_⟩
  · obtain ⟨j, hj1, hj2, hj3, hj4⟩ := memberCodeDraws_some db rid draws 15 0 code hsome
    have hj15 : j < 15 := by omega
    exact ⟨⟨j, hj15, hj3, (hrange j hj15).1, (hrange j hj15).2⟩, hj4⟩
  · exact memberCodeDraws_none db rid draws 15 0 (fun j _ hj => hall j (by omega))
  · exact memberCodeDraws_congr db rid draws draws' 15 0 (fun j _ hj => hag j (by omega))
  · unfold createCustomer
    cases r.email with
    | none => rfl
    | some email =>
      simp only [hnone]
      split_ifs <;> rfl

/-- Witness for C3: with the single customer holding code 12345 in r1, a
stream drawing 33333 succeeds at the first draw with a fresh in-range code; a
stream drawing the taken 12345 forever exhausts all 15 attempts; the
allocator ignores draws beyond index 14; and a registration whose allocation
exhausts leaves the store untouched. -/
theorem generateMemberCode_spec_witness :
    ((∃ i, i < 15 ∧ "33333" = toString ((fun _ => 33333 : Nat → Nat) i) ∧
        10000 ≤ (fun _ => 33333 : Nat → Nat) i ∧ (fun _ => 33333 : Nat → Nat) i ≤ 99999) ∧
      memberCodeExists exDB (some "r1") "33333" = false) ∧
    (generateMemberCode exDB (some "r1") (fun _ => 12345) = none) ∧
    (generateMemberCode exDB (some "r1") (fun i => 10000 + i) =
      generateMemberCode exDB (some "r1") (fun i => if i < 15 then 10000 + i else 0)) ∧
    ((createCustomer exDB ⟨none, some "new@example.com", none, none, some "r1"⟩
        (fun _ => true) (fun _ => 12345) 100 "c9" "t9").1 = exDB) := by
  have h := generateMemberCode_spec exDB (some "r1") (fun i => 10000 + i)
    (fun i => if i < 15 then 10000 + i else 0)
    ⟨none, some "new@example.com", none, none, some "r1"⟩ (fun _ => true) 100 "c9" "t9"
  have h' := generateMemberCode_spec exDB (some "r1") (fun _ => 33333) (fun _ => 33333)
    ⟨none, some "new@example.com", none, none, some "r1"⟩ (fun _ => true) 100 "c9" "t9"
  have h'' := generateMemberCode_spec exDB (some "r1") (fun _ => 12345) (fun _ => 12345)
    ⟨none, some "new@example.com", none, none, some "r1"⟩ (fun _ => true) 100 "c9" "t9"
  refine ⟨h'.1 "33333" (by decide) (fun i _ => ⟨by omega, by omega⟩), ?_, ?_, ?_⟩
  · exact h''.2.1 (fun i _ => by decide)
  · exact h.2.2.1 (fun i hi => by simp [hi])
  · exact h''.2.2.2 (h''.2.1 (fun i _ => by decide))

/-! ## Claim C4 -/

/-- Claim C4: a registration that passes validation and allocation, when a
restaurant scope survives trimming, appends exactly one REGISTRATION ledger
entry whose `amount` and `balanceAfter` both equal the configured
welcome-bonus constant, with the bonus-dependent description; a registration
without a restaurant scope appends no ledger entry at all. -/
theorem createCustomer_registration_ledger
    (db : DB) (r : CreateCustomerRequest) (dateValid : String → Bool) (draws : Nat → Nat)
    (wb : Int) (ncid ntid : String) (e code : String)
    (hre : r.email = some e) (he1 : jsTrim e ≠ "")
    (he2 : emailRegexTest (jsTrim e) = true)
    (hdob : (match r.dateOfBirth with
             | some d => (d != "") && !(dateValid d)
             | none => false) = false)
    (hdup : (db.customers.find? (fun c => c.email == jsToLower (jsTrim e))).isSome = false)
    (halloc : generateMemberCode db (effectiveRestaurantId r) draws = some code) :
    (∀ rr : String, effectiveRestaurantId r = some rr →
      (createCustomer db r dateValid draws wb ncid ntid).2.status = 201 ∧
      (createCustomer db r dateValid draws wb ncid ntid).1.transactions =
        { id := ntid, customerId := ncid, restaurantId := rr, type := "REGISTRATION",
          amount := wb,
          description :=
            if wb > 0 then
              "Welcome bonus: " ++ toString wb ++ " points awarded on registration"
            else "Customer registration",
          balanceAfter := wb, createdBy := none } :: db.transactions) ∧
    (effectiveRestaurantId r = none →
      (createCustomer db r dateValid draws wb ncid ntid).2.status = 201 ∧
      (createCustomer db r dateValid draws wb ncid ntid).1.transactions = db.transactions) := by
  constructor
  · intro rr hrid
    rw [hrid] at halloc
    unfold createCustomer
    simp [hre, he1, he2, hdob, hdup, halloc, hrid]
  · intro hrid
    rw [hrid] at halloc
    unfold createCustomer
    simp [hre, he1, he2, hdob, hdup, halloc, hrid]

/-- Witness for C4: registering into r1 with a 100-point bonus appends one
REGISTRATION entry with `amount = 100 = balanceAfter` and the bonus
description; registering without a restaurant appends nothing. -/
theorem createCustomer_registration_ledger_witness :
    ((createCustomer exDB ⟨none, some "new@example.com", none, none, some "r1"⟩
        (fun _ => true) (fun _ => 33333) 100 "c9" "t9").2.status = 201 ∧
      (createCustomer exDB ⟨none, some "new@example.com", none, none, some "r1"⟩
        (fun _ => true) (fun _ => 33333) 100 "c9" "t9").1.transactions =
        [{ id := "t9", customerId := "c9", restaurantId := "r1", type := "REGISTRATION",
           amount := 100,
           description := "Welcome bonus: 100 points awarded on registration",
           balanceAfter := 100, createdBy := none }]) ∧
    ((createCustomer exDB ⟨none, some "other@example.com", none, none, none⟩
        (fun _ => true) (fun _ => 33333) 100 "c9" "t9").2.status = 201 ∧
      (createCustomer exDB ⟨none, some "other@example.com", none, none, none⟩
        (fun _ => true) (fun _ => 33333) 100 "c9" "t9").1.transactions = []) := by
  constructor
  · have h := (createCustomer_registration_ledger exDB
      ⟨none, some "new@example.com", none, none, some "r1"⟩ (fun _ => true) (fun _ => 33333)
      100 "c9" "t9" "new@example.com" "33333" rfl (by decide) (by decide) (by decide)
      (by decide) (by decide)).1 "r1" (by decide)
    simpa using h
  · have h := (createCustomer_registration_ledger exDB
      ⟨none, some "other@example.com", none, none, none⟩ (fun _ => true) (fun _ => 33333)
      100 "c9" "t9" "other@example.com" "33333" rfl (by decide) (by decide) (by decide)
      (by decide) (by decide)).2 (by decide)
    simpa using h

/-! ## Claim C5 -/

/-- A customer reachable only by phone: the raw phone keeps one digit, so the
digit-stripped query "a1" falls in the member-code shape class. -/
def phoneCustomer : Customer :=
  { id := "c2", name := none, email := "c2@example.com", phone := some "a1",
    phoneNormalized := some "1", memberCode := some "77777", dateOfBirth := none,
    restaurantId := some "r1" }

/-- Store holding `phoneCustomer` only. -/
def phoneDB : DB :=
  { customers := [phoneCustomer], restaurants := [], transactions := [], permissions := [] }

/-- Counterexample to C5 as stated: the query "a1" contains no at-sign, is
not all digits, and has no hash prefix, so the claim routes it to the phone
match, and a customer of the scope with phone exactly "a1" exists; yet
`searchCustomer` answers 404, because the code classifies by the
digit-stripped form ("1", length 1 ≤ 6) and looks "1" up as a member code. -/
theorem searchCustomer_allDigits_counterexample :
    ("a1".data.contains '@' = false) ∧
    ("a1".data.all Char.isDigit = false) ∧
    (startsWithHash "a1" = false) ∧
    (phoneDB.customers.find? (fun c =>
        c.restaurantId == some "r1" &&
          (c.phoneNormalized == some (normalizePhone "a1") || c.phone == some "a1")) =
      some phoneCustomer) ∧
    (searchCustomer phoneDB (some "a1") (some "r1") none).status = 404 := by
  decide

/-- A found search result always lies in the requested restaurant scope. -/
theorem searchOutcome_scoped (l : List Customer) (rid : String) (P : Customer → Bool)
    (c : Customer)
    (h : (searchOutcome (l.find? (fun c => c.restaurantId == some rid && P c))).customer =
      some c) :
    c.restaurantId = some rid := by
  cases hf : l.find? (fun c => c.restaurantId == some rid && P c) with
  | none => rw [hf] at h; simp [searchOutcome] at h
  | some c' =>
    rw [hf] at h
    simp only [searchOutcome, Option.some.injEq] at h
    subst h
    have hp := List.find?_some hf
    simp only [Bool.and_eq_true, beq_iff_eq] at hp
    exact hp.1

/-- Claim C5 (amended): for a non-empty trimmed query and an explicit
restaurant scope, `searchCustomer` dispatches by shape — a query containing
an at-sign is matched as an exact case-folded email; a query prefixed with a
hash, or whose digit-stripped form has between 1 and 6 digits, is matched as
a member code (the digit-stripped form, or the hash-stripped raw query when
no digit survives); any other query is matched in a single lookup against the
normalized-digits phone form or the exact raw phone string — every lookup is
restricted to the scope (any returned customer carries that restaurantId),
and a miss is the 404 `Customer not found` built into `searchOutcome`. -/
theorem searchCustomer_dispatch (db : DB) (qs rs : String) (uid : Option String)
    (hq : jsTrim qs ≠ "") (hr : jsTrim rs ≠ "") :
    ((jsTrim qs).data.contains '@' = true →
      searchCustomer db (some qs) (some rs) uid =
        searchOutcome (db.customers.find? (fun c =>
          c.restaurantId == some (jsTrim rs) && c.email == jsToLower (jsTrim qs)))) ∧
    ((jsTrim qs).data.contains '@' = false →
      (startsWithHash (jsTrim qs) = true ∨
        (1 ≤ (normalizePhone (jsTrim qs)).length ∧ (normalizePhone (jsTrim qs)).length ≤ 6)) →
      searchCustomer db (some qs) (some rs) uid =
        searchOutcome (db.customers.find? (fun c =>
          c.restaurantId == some (jsTrim rs) &&
            c.memberCode == some (if normalizePhone (jsTrim qs) == "" then
              removeFirstHash (jsTrim qs) else normalizePhone (jsTrim qs))))) ∧
    ((jsTrim qs).data.contains '@' = false →
      startsWithHash (jsTrim qs) = false →
      ¬(1 ≤ (normalizePhone (jsTrim qs)).length ∧ (normalizePhone (jsTrim qs)).length ≤ 6) →
      searchCustomer db (some qs) (some rs) uid =
        searchOutcome (db.customers.find? (fun c =>
          c.restaurantId == some (jsTrim rs) &&
            (c.phoneNormalized == some (normalizePhone (jsTrim qs)) ||
              c.phone == some (jsTrim qs))))) ∧
    (∀ c : Customer, (searchCustomer db (some qs) (some rs) uid).customer = some c →
      c.restaurantId = some (jsTrim rs)) := by
  refine ⟨fun hat => ?_, fun hat hshape => ?_, fun hat hhash hlen => ?_, fun c hc => ?_⟩
  · have hat' : '@' ∈ (jsTrim qs).data := by simpa using hat
    unfold searchCustomer
    simp [hq, hr, hat']
  · have hat' : '@' ∉ (jsTrim qs).data := by simpa using hat
    unfold searchCustomer
    rcases hshape with hsh | hlen
    · simp [hq, hr, hat', hsh]
    · simp [hq, hr, hat', hlen.1, hlen.2]
  · have hat' : '@' ∉ (jsTrim qs).data := by simpa using hat
    unfold searchCustomer
    simp [hq, hr, hat', hhash, hlen]
  · by_cases hat : '@' ∈ (jsTrim qs).data
    · rw [(by
        unfold searchCustomer
        simp [hq, hr, hat] :
          searchCustomer db (some qs) (some rs) uid =
            searchOutcome (db.customers.find? (fun c =>
              c.restaurantId == some (jsTrim rs) && c.email == jsToLower (jsTrim qs))))] at hc
      exact searchOutcome_scoped _ _ _ _ hc
    · by_cases hsh : startsWithHash (jsTrim qs) = true ∨
          (1 ≤ (normalizePhone (jsTrim qs)).length ∧ (normalizePhone (jsTrim qs)).length ≤ 6)
      · rcases hsh with hsh | hlen
        · rw [(by
            unfold searchCustomer
            simp [hq, hr, hat, hsh] :
              searchCustomer db (some qs) (some rs) uid =
                searchOutcome (db.customers.find? (fun c =>
                  c.restaurantId == some (jsTrim rs) &&
                    c.memberCode == some (if normalizePhone (jsTrim qs) == "" then
                      removeFirstHash (jsTrim qs) else normalizePhone (jsTrim qs)))))] at hc
          exact searchOutcome_scoped _ _ _ _ hc
        · rw [(by
            unfold searchCustomer
            simp [hq, hr, hat, hlen.1, hlen.2] :
              searchCustomer db (some qs) (some rs) uid =
                searchOutcome (db.customers.find? (fun c =>
                  c.restaurantId == some (jsTrim rs) &&
                    c.memberCode == some (if normalizePhone (jsTrim qs) == "" then
                      removeFirstHash (jsTrim qs) else normalizePhone (jsTrim qs)))))] at hc
          exact searchOutcome_scoped _ _ _ _ hc
      · have hhash : startsWithHash (jsTrim qs) = false := by
          cases h : startsWithHash (jsTrim qs) with
          | false => rfl
          | true => exact absurd (Or.inl h) hsh
        have hlen : ¬(1 ≤ (normalizePhone (jsTrim qs)).length ∧
            (normalizePhone (jsTrim qs)).length ≤ 6) := fun h => hsh (Or.inr h)
        rw [(by
          unfold searchCustomer
          simp [hq, hr, hat, hhash, hlen] :
            searchCustomer db (some qs) (some rs) uid =
              searchOutcome (db.customers.find? (fun c =>
                c.restaurantId == some (jsTrim rs) &&
                  (c.phoneNormalized == some (normalizePhone (jsTrim qs)) ||
                    c.phone == some (jsTrim qs)))))] at hc
        exact searchOutcome_scoped _ _ _ _ hc

/-- Witness for C5 (amended): on the single-customer store, an at-sign query
routes to the email lookup, a hash query routes to the member-code lookup, a
long dashed number routes to the phone lookup, and the customer found by the
hash query carries the requested restaurant scope. -/
theorem searchCustomer_dispatch_witness :
    (searchCustomer exDB (some "c1@example.com") (some "r1") none =
      searchOutcome (exDB.customers.find? (fun c =>
        c.restaurantId == some "r1" && c.email == jsToLower "c1@example.com"))) ∧
    (searchCustomer exDB (some "#12345") (some "r1") none =
      searchOutcome (exDB.customers.find? (fun c =>
        c.restaurantId == some "r1" &&
          c.memberCode == some (if normalizePhone "#12345" == "" then
            removeFirstHash "#12345" else normalizePhone "#12345")))) ∧
    (searchCustomer exDB (some "555-123-4567") (some "r1") none =
      searchOutcome (exDB.customers.find? (fun c =>
        c.restaurantId == some "r1" &&
          (c.phoneNormalized == some (normalizePhone "555-123-4567") ||
            c.phone == some "555-123-4567")))) ∧
    exCustomer.restaurantId = some "r1" := by
  have h1 := searchCustomer_dispatch exDB "c1@example.com" "r1" none (by decide) (by decide)
  have h2 := searchCustomer_dispatch exDB "#12345" "r1" none (by decide) (by decide)
  have h3 := searchCustomer_dispatch exDB "555-123-4567" "r1" none (by decide) (by decide)
  refine ⟨?_, ?_, ?_, ?_⟩
  · simpa using h1.1 (by decide)
  · simpa using h2.2.1 (by decide) (Or.inl (by decide))
  · simpa using h3.2.2.1 (by decide) (by decide) (by decide)
  · simpa using h2.2.2.2 exCustomer (by decide)

/-! ## Delivery outcome characterization (shared by the push claims) -/

/-- The outcome object one target produces, as a function of that target and
the provider alone (the store plays no role in the outcome). -/
def deliveryOutcomeOf (provider : String → PushResult) (p : NotificationPermission) :
    DeliveryOutcome :=
  match p.pushSubscription with
  | none => ⟨false, some "No push subscription"⟩
  | some s =>
    if s.endpoint == "" then ⟨false, some "No push subscription"⟩
    else
      match provider s.endpoint with
      | .ok => ⟨true, none⟩
      | .err _ m => ⟨false, some m⟩

/-- The endpoint a target hands to the provider, when it hands one at all. -/
def attemptedEndpoint (p : NotificationPermission) : Option String :=
  match p.pushSubscription with
  | none => none
  | some s => if s.endpoint == "" then none else some s.endpoint

/-- One delivery step's outcome and attempt trace depend only on the target
and the provider, never on the threaded store. -/
theorem sendPushToPermission_components (provider : String → PushResult) (db : DB)
    (p : NotificationPermission) :
    (sendPushToPermission provider db p).2.1 = deliveryOutcomeOf provider p ∧
    (sendPushToPermission provider db p).2.2 = (attemptedEndpoint p).toList := by
  unfold sendPushToPermission deliveryOutcomeOf attemptedEndpoint
  cases p.pushSubscription with
  | none => exact ⟨rfl, rfl⟩
  | some s =>
    by_cases he : s.endpoint == ""
    · simp [he]
    · cases hp : provider s.endpoint with
      | ok => simp [he, hp]
      | err sc m => simp [he, hp]

/-- The fold over all targets produces exactly the mapped outcomes and the
concatenated attempt traces. -/
theorem runDeliveries_components (provider : String → PushResult) :
    ∀ (l : List NotificationPermission) (db : DB),
      (runDeliveries provider db l).2.1 = l.map (deliveryOutcomeOf provider) ∧
      (runDeliveries provider db l).2.2 = l.filterMap attemptedEndpoint := by
  intro l
  induction l with
  | nil => intro db; exact ⟨rfl, rfl⟩
  | cons p rest ih =>
    intro db
    unfold runDeliveries
    obtain ⟨h1, h2⟩ := sendPushToPermission_components provider db p
    obtain ⟨ih1, ih2⟩ := ih (sendPushToPermission provider db p).1
    constructor
    · simp [h1, ih1]
    · simp [h2, ih2, List.filterMap_cons]
      cases hae : attemptedEndpoint p <;> simp [hae]

/-! ## Claim C6 -/

/-- A live push subscription whose endpoint the provider will report gone. -/
def goneSub : PushSub := ⟨"https://push.example/ep1", ⟨some "k1", some "a1"⟩⟩

/-- The permission row holding `goneSub`, granted for r1. -/
def gonePerm : NotificationPermission := ⟨"p1", "c1", "r1", true, some goneSub⟩

/-- Store with just that permission row. -/
def goneDB : DB := { customers := [], restaurants := [], transactions := [], permissions := [gonePerm] }

/-- A provider that reports every endpoint gone with HTTP 410. -/
def goneProvider : String → PushResult := fun _ => .err (some 410) "gone"

/-- Claim C6 fails on the code: delivering to a subscription the provider
reports gone (HTTP 410) reaches the prune branch, but the prune update passes
`pushSubscription: undefined`, which Prisma skips, so the send returns the
store UNCHANGED — the row still carries `goneSub` — while the target is
counted as failed.  Because the store is returned unchanged and the call is a
function of the store, a second send performs the identical delivery attempt
to the same endpoint instead of finding the subscription cleared. -/
theorem sendNotification_gone_prune_noop :
    sendNotificationToRestaurant (some "pk") (some "sk") goneProvider goneDB "r1" none =
      .ok { db := goneDB, stats := { sent := 0, failed := 1, errors := ["gone"] },
            attempted := ["https://push.example/ep1"] } ∧
    gonePerm.pushSubscription = some goneSub := by
  constructor
  · rfl
  · rfl

/-! ## Claim C7 -/

/-- Claim C7: the HTTP handler rejects an explicitly empty `customerIds`
array with a 400 before touching the service; the service throws exactly when
the VAPID provider configuration is missing — with it present the call always
returns an aggregate, whatever the provider does to each delivery; and the
endpoints actually handed to the provider are exactly those of the rows
matching (restaurantId, permissionGranted, customerIds-intersection) that
carry a subscription with a nonempty endpoint. -/
theorem sendNotification_targeting (vp vk : Option String) (provider : String → PushResult)
    (db : DB) (r : SendNotificationBody) (rid : String) (cids : Option (List String)) :
    (jsStrFalsy r.restaurantId = false → jsStrFalsy r.title = false →
      jsStrFalsy r.body = false → r.customerIds = some [] →
      sendNotification vp vk provider db r =
        (db, ⟨400, false,
          "customerIds array cannot be empty. Omit it to send to all customers.",
          none, none, none⟩)) ∧
    (vapidConfigured vp vk = false →
      sendNotificationToRestaurant vp vk provider db rid cids =
        .error "VAPID keys are not configured. Please set VAPID_PUBLIC_KEY and VAPID_PRIVATE_KEY environment variables.") ∧
    (vapidConfigured vp vk = true →
      ∃ out : SendOutcome,
        sendNotificationToRestaurant vp vk provider db rid cids = .ok out ∧
        out.attempted =
          ((db.permissions.filter (permissionMatchesTarget rid cids)).filter
            hasPushSubscription).filterMap attemptedEndpoint) := by
  refine ⟨fun h1 h2 h3 hcids => ?_, fun hv => ?_, fun hv => ?_⟩
  · unfold sendNotification
    simp [h1, h2, h3, hcids]
  · unfold sendNotificationToRestaurant
    simp [hv]
  · unfold sendNotificationToRestaurant
    rw [if_neg (by simp [hv])]
    by_cases hp : (db.permissions.filter (permissionMatchesTarget rid cids)).isEmpty
    · simp only [hp, if_true]
      exact ⟨_, rfl, by simp [List.isEmpty_iff.mp hp]⟩
    · simp only [hp, Bool.false_eq_true, if_false]
      by_cases hw : ((db.permissions.filter (permissionMatchesTarget rid cids)).filter
          hasPushSubscription).isEmpty
      · simp only [hw, if_true]
        exact ⟨_, rfl, by simp [List.isEmpty_iff.mp hw]⟩
      · simp only [hw, Bool.false_eq_true, if_false]
        exact ⟨_, rfl,
          (runDeliveries_components provider
            ((db.permissions.filter (permissionMatchesTarget rid cids)).filter
              hasPushSubscription) db).2⟩

/-- Witness for C7: the empty-array 400 fires on a well-formed body; without
VAPID keys the service throws; with them, sending to `goneDB` attempts
exactly `goneSub`'s endpoint. -/
theorem sendNotification_targeting_witness :
    (sendNotification (some "pk") (some "sk") goneProvider goneDB
        ⟨some "r1", some "t", some "b", some []⟩ =
      (goneDB, ⟨400, false,
        "customerIds array cannot be empty. Omit it to send to all customers.",
        none, none, none⟩)) ∧
    (sendNotificationToRestaurant none none goneProvider goneDB "r1" none =
      .error "VAPID keys are not configured. Please set VAPID_PUBLIC_KEY and VAPID_PRIVATE_KEY environment variables.") ∧
    (∃ out : SendOutcome,
      sendNotificationToRestaurant (some "pk") (some "sk") goneProvider goneDB "r1" none =
        .ok out ∧
      out.attempted =
        ((goneDB.permissions.filter (permissionMatchesTarget "r1" none)).filter
          hasPushSubscription).filterMap attemptedEndpoint) := by
  refine ⟨?_, ?_, ?_⟩
  · exact (sendNotification_targeting (some "pk") (some "sk") goneProvider goneDB
      ⟨some "r1", some "t", some "b", some []⟩ "r1" none).1
      (by decide) (by decide) (by decide) rfl
  · exact (sendNotification_targeting none none goneProvider goneDB
      ⟨some "r1", some "t", some "b", some []⟩ "r1" none).2.1 (by decide)
  · exact (sendNotification_targeting (some "pk") (some "sk") goneProvider goneDB
      ⟨some "r1", some "t", some "b", some []⟩ "r1" none).2.2 (by decide)

/-! ## Claim C9 -/

/-- Claim C9: once the delivery stage is reached (some matched row carries a
subscription), the counters satisfy `sent + failed` = number of
subscription-carrying matched rows, and `errors` consists of exactly one
string per failed delivery with a non-empty error message; when rows match
but none carries a subscription, the result is `sent = 0`, `failed = 0` with
exactly one diagnostic string. -/
theorem sendNotification_counter_invariant (vp vk : Option String)
    (provider : String → PushResult) (db : DB) (rid : String)
    (cids : Option (List String)) (hv : vapidConfigured vp vk = true) :
    ∃ out : SendOutcome,
      sendNotificationToRestaurant vp vk provider db rid cids = .ok out ∧
      (((db.permissions.filter (permissionMatchesTarget rid cids)).filter
          hasPushSubscription) ≠ [] →
        out.stats.sent + out.stats.failed =
          ((db.permissions.filter (permissionMatchesTarget rid cids)).filter
            hasPushSubscription).length ∧
        out.stats.errors =
          (((db.permissions.filter (permissionMatchesTarget rid cids)).filter
            hasPushSubscription).filter
              (fun p => !(deliveryOutcomeOf provider p).success)).filterMap
            (fun p =>
              match (deliveryOutcomeOf provider p).error with
              | some m => if m == "" then none else some m
              | none => none)) ∧
      (db.permissions.filter (permissionMatchesTarget rid cids) ≠ [] →
        ((db.permissions.filter (permissionMatchesTarget rid cids)).filter
          hasPushSubscription) = [] →
        out.stats.sent = 0 ∧ out.stats.failed = 0 ∧ out.stats.errors.length = 1) := by
  unfold sendNotificationToRestaurant
  rw [if_neg (by simp [hv])]
  by_cases hp : (db.permissions.filter (permissionMatchesTarget rid cids)).isEmpty
  · simp only [hp, if_true]
    refine ⟨_, rfl, fun hws => ?_, fun hne _ => ?_⟩
    · exact absurd (by simp [List.isEmpty_iff.mp hp]) hws
    · exact absurd (List.isEmpty_iff.mp hp) hne
  · simp only [hp, Bool.false_eq_true, if_false]
    by_cases hw : ((db.permissions.filter (permissionMatchesTarget rid cids)).filter
        hasPushSubscription).isEmpty
    · simp only [hw, if_true]
      refine ⟨_, rfl, fun hws => ?_, fun _ _ => ⟨rfl, rfl, rfl⟩⟩
      exact absurd (List.isEmpty_iff.mp hw) hws
    · simp only [hw, Bool.false_eq_true, if_false]
      refine ⟨_, rfl, fun _ => ?_, fun _ hws => ?_⟩
      · have houts := (runDeliveries_components provider
          ((db.permissions.filter (permissionMatchesTarget rid cids)).filter
            hasPushSubscription) db).1
        constructor
        · simp only [houts]
          have hle := List.length_filter_le (fun o => o.success)
            (((db.permissions.filter (permissionMatchesTarget rid cids)).filter
              hasPushSubscription).map (deliveryOutcomeOf provider))
          simp only [List.length_map] at hle ⊢
          omega
        · simp only [houts,
            List.filter_map (deliveryOutcomeOf provider)
              ((db.permissions.filter (permissionMatchesTarget rid cids)).filter
                hasPushSubscription),
            List.filterMap_map]
          rfl
      · exact absurd hws (by simpa using hw)

/-- A provider that succeeds on ep1, fails ep2 with a message, and fails ep3
with an empty message, for the counter witness. -/
def mixedProvider : String → PushResult := fun e =>
  if e == "ep1" then .ok
  else if e == "ep2" then .err none "boom"
  else .err none ""

/-- Three granted permission rows for r1: two with subscriptions (one will
succeed, one will fail with a message) and one without. -/
def mixedDB : DB :=
  { customers := [], restaurants := [], transactions := [],
    permissions :=
      [⟨"p1", "c1", "r1", true, some ⟨"ep1", ⟨none, none⟩⟩⟩,
       ⟨"p2", "c2", "r1", true, some ⟨"ep2", ⟨none, none⟩⟩⟩,
       ⟨"p3", "c3", "r1", true, none⟩] }

/-- Witness for C9: on `mixedDB`, `sent + failed = 2` over the two
subscription-carrying rows and the single failure message is collected; on
`goneDB` restricted to a customer with no subscription-carrying match, the
no-subscription diagnostic is the single error. -/
theorem sendNotification_counter_invariant_witness :
    (∃ out : SendOutcome,
      sendNotificationToRestaurant (some "pk") (some "sk") mixedProvider mixedDB "r1" none =
        .ok out ∧
      out.stats.sent + out.stats.failed =
        ((mixedDB.permissions.filter (permissionMatchesTarget "r1" none)).filter
          hasPushSubscription).length ∧
      out.stats.errors =
        (((mixedDB.permissions.filter (permissionMatchesTarget "r1" none)).filter
          hasPushSubscription).filter
            (fun p => !(deliveryOutcomeOf mixedProvider p).success)).filterMap
          (fun p =>
            match (deliveryOutcomeOf mixedProvider p).error with
            | some m => if m == "" then none else some m
            | none => none)) ∧
    (∃ out : SendOutcome,
      sendNotificationToRestaurant (some "pk") (some "sk") mixedProvider mixedDB "r1"
          (some ["c3"]) = .ok out ∧
      out.stats.sent = 0 ∧ out.stats.failed = 0 ∧ out.stats.errors.length = 1) := by
  constructor
  · obtain ⟨out, heq, hmain, _⟩ := sendNotification_counter_invariant (some "pk") (some "sk")
      mixedProvider mixedDB "r1" none (by decide)
    exact ⟨out, heq, hmain (by decide)⟩
  · obtain ⟨out, heq, _, hdiag⟩ := sendNotification_counter_invariant (some "pk") (some "sk")
      mixedProvider mixedDB "r1" (some ["c3"]) (by decide)
    exact ⟨out, heq, hdiag (by decide) (by decide)⟩

/-! ## Claim C10 -/

/-- Claim C10: with both ids present and the customer on record,
`createNotificationPermission` answers 201 and upserts the
(customerId, restaurantId) row: an existing row is updated in place with
`permissionGranted := permissionGranted ?? false` — so omitting the field
stores `false`, revoking a previously granted permission — and with its
stored `pushSubscription` left unchanged when the request omits it (Prisma
skips the `undefined` column) or overwritten when it is given; with no
existing row a fresh one is created with those same values. -/
theorem createNotificationPermission_upsert
    (db : DB) (r : CreateNotificationPermissionBody) (newId cid rid : String)
    (hcid : r.customerId = some cid) (hcid' : cid ≠ "")
    (hrid : r.restaurantId = some rid) (hrid' : rid ≠ "")
    (hcust : (db.customers.find? (fun c => c.id == cid)).isNone = false) :
    (createNotificationPermission db r newId).2 =
      ⟨201, true, "Notification permission saved successfully"⟩ ∧
    (createNotificationPermission db r newId).1.permissions =
      (if db.permissions.any (permKeyMatch cid rid) then
        db.permissions.map (fun p =>
          if permKeyMatch cid rid p then
            { p with permissionGranted := r.permissionGranted.getD false,
                     pushSubscription :=
                       match r.pushSubscription with
                       | some s => some s
                       | none => p.pushSubscription }
          else p)
      else
        { id := newId, customerId := cid, restaurantId := rid,
          permissionGranted := r.permissionGranted.getD false,
          pushSubscription := r.pushSubscription } :: db.permissions) := by
  constructor
  · unfold createNotificationPermission
    simp [hcid, hrid, hcid', hrid', hcust, jsStrFalsy]
  · unfold createNotificationPermission upsertNotificationPermission
    cases hps : r.pushSubscription with
    | none =>
      simp [hcid, hrid, hcid', hrid', hcust, jsStrFalsy, applyPrismaJsonArg, hps]
      split <;> rfl
    | some s =>
      simp [hcid, hrid, hcid', hrid', hcust, jsStrFalsy, applyPrismaJsonArg, hps]
      split <;> rfl

/-- Store with one granted permission carrying a subscription, for the C10
witness. -/
def permDB : DB :=
  { exDB with permissions := [⟨"p1", "c1", "r1", true, some ⟨"ep9", ⟨none, none⟩⟩⟩] }

/-- Witness for C10: a body omitting both `permissionGranted` and
`pushSubscription` revokes the previously granted row while keeping its
stored subscription; on a store without the row, the same body creates it
with `permissionGranted = false` and no subscription. -/
theorem createNotificationPermission_upsert_witness :
    ((createNotificationPermission permDB ⟨some "c1", some "r1", none, none⟩ "p9").2 =
      ⟨201, true, "Notification permission saved successfully"⟩ ∧
     (createNotificationPermission permDB ⟨some "c1", some "r1", none, none⟩
        "p9").1.permissions =
      [⟨"p1", "c1", "r1", false, some ⟨"ep9", ⟨none, none⟩⟩⟩]) ∧
    ((createNotificationPermission exDB ⟨some "c1", some "r1", none, none⟩
        "p9").1.permissions =
      [⟨"p9", "c1", "r1", false, none⟩]) := by
  constructor
  · obtain ⟨hresp, hperm⟩ := createNotificationPermission_upsert permDB
      ⟨some "c1", some "r1", none, none⟩ "p9" "c1" "r1" rfl (by decide) rfl (by decide)
      (by decide)
    refine ⟨hresp, ?_⟩
    rw [hperm]
    decide
  · obtain ⟨_, hperm⟩ := createNotificationPermission_upsert exDB
      ⟨some "c1", some "r1", none, none⟩ "p9" "c1" "r1" rfl (by decide) rfl (by decide)
      (by decide)
    rw [hperm]
    decide

end Loyaltering
